import Mathlib

/-!
Verification of the image-watermarking engine (the `useWatermark` hook).

The development shallowly embeds the hook's components:
eligibility filter (`exclude`), loader (`ensureLoaded`), layout engine
(the font-sizing / letter-spacing / anchoring arithmetic of `bakeWatermark`),
baking pipeline outcome (`bakeWatermark`), overlay fallback (`setOverlay`),
the per-element processing step (`process`, as a trace of DOM side effects),
the mutation-observer src-attribute handler (`moAttrSrcHandler`) and the
effect cleanup (`teardown`).

DOM/browser facts are modelled explicitly: JavaScript falsy-coalescing
(`a || b` on numbers) is `jsOr`, `Math.round` is `jsRound` (floor of x + 1/2,
the JavaScript half-up rule), canvas text measurement is an abstract per-glyph
width function, an image element is a record of the fields the hook reads,
and a promise that can stay pending forever is an `Option`-valued outcome
(`none` = never settles).
-/

deriving instance DecidableEq for Except

namespace Watermark

/-- The watermark display text (`TEXT` constant in the hook). -/
def TEXT : String := "ashishproperties.in"

/-- The dataset value the hook uses for an explicit opt-out. -/
def trueStr : String := "true"

/-- The dataset value marking an element processed. -/
def oneStr : String := "1"

/-- The empty string (falsy dataset value / cleared marker). -/
def emptyStr : String := ""

/-- Scheme of transient blob handles (`blob:` URLs). -/
def blobScheme : String := "blob:"

/-- Rejection message of the loader on an error event. -/
def imgErrorMsg : String := "img-error"

/-- Rejection message for zero intrinsic size. -/
def noSizeMsg : String := "no-size"

/-- Rejection message for a refused cross-origin load. -/
def corsMsg : String := "cors-blocked"

/-- Rejection message when no 2d context is available. -/
def ctxMsg : String := "ctx"

/-- Rejection message when the secondary data-URI export throws. -/
def toDataUrlMsg : String := "toDataURL"

/-- Rejection message when the blob export itself throws (tainted canvas). -/
def taintedMsg : String := "tainted"

/-- JavaScript `a || b` on non-negative numbers: the first non-zero value. -/
def jsOr (a b : Nat) : Nat := if a = 0 then b else a

/-- JavaScript `a || b` on rationals (0 is the only falsy number here). -/
def jsOrQ (a b : ℚ) : ℚ := if a = 0 then b else a

/-- JavaScript `Math.round`: half-up rounding, `floor (x + 1/2)`. -/
def jsRound (x : ℚ) : ℤ := ⌊x + 1 / 2⌋

/-- The fields of an `HTMLImageElement` (plus its `dataset` entries) that the
hook reads or writes: opt-out flag `data-no-wm`, the `no-wm` class marker,
intrinsic (`natural`) and layout sizes, load-completion flag, the `src`
attribute, and the engine's own markers `data-wm-processed` / `data-wm-url`. -/
structure ImgEl where
  noWm : String
  classNoWm : Bool
  naturalWidth : Nat
  naturalHeight : Nat
  width : Nat
  height : Nat
  complete : Bool
  src : String
  wmProcessed : String
  wmUrl : Option String
deriving DecidableEq

/-- The eligibility filter (`exclude`, hook lines 24-31): opt-out flag,
opt-out class, then the size threshold over `naturalWidth || width || 0`
and `naturalHeight || height || 0`. -/
def exclude (img : ImgEl) : Bool :=
  if img.noWm = trueStr then true
  else if img.classNoWm = true then true
  else
    let w := jsOr img.naturalWidth img.width
    let h := jsOr img.naturalHeight img.height
    if w < 120 ∨ h < 120 then true else false

/-- `alreadyProcessed` (hook lines 33-34). -/
def alreadyProcessed (img : ImgEl) : Bool :=
  if img.wmProcessed = oneStr then true else false

/-- A not-yet-loaded image with zero natural size and zero layout size:
the filter has nothing to fall back to. -/
def imgZero : ImgEl :=
  { noWm := emptyStr, classNoWm := false, naturalWidth := 0, naturalHeight := 0,
    width := 0, height := 0, complete := false, src := emptyStr,
    wmProcessed := emptyStr, wmUrl := none }

/-- A not-yet-loaded image (zero natural size) with a large layout size. -/
def imgFallback : ImgEl :=
  { noWm := emptyStr, classNoWm := false, naturalWidth := 0, naturalHeight := 200,
    width := 500, height := 0, complete := false, src := emptyStr,
    wmProcessed := emptyStr, wmUrl := none }

/-- A loaded 100 by 100 image, no opt-outs. -/
def img100 : ImgEl :=
  { noWm := emptyStr, classNoWm := false, naturalWidth := 100, naturalHeight := 100,
    width := 100, height := 100, complete := true, src := emptyStr,
    wmProcessed := emptyStr, wmUrl := none }

/-- A loaded 120 by 120 image, no opt-outs. -/
def img120 : ImgEl :=
  { noWm := emptyStr, classNoWm := false, naturalWidth := 120, naturalHeight := 120,
    width := 120, height := 120, complete := true, src := emptyStr,
    wmProcessed := emptyStr, wmUrl := none }

/-- A load or error event that the element may fire after the loader
subscribes (hook lines 42-55). -/
inductive LoadEvent where
  | load
  | err
deriving DecidableEq

/-- The loader `ensureLoaded` (hook lines 39-56).  `events` is the list of
load/error firings the element will emit after subscription; the promise
settles with the first one.  `none` models a promise that stays pending
forever: when the element is already in a completed state (so no further
load/error event will ever fire) but its natural width is zero, the
immediate-resolve guard `img.complete && img.naturalWidth > 0` is false and
the registered listeners are never invoked. -/
def ensureLoaded (img : ImgEl) (events : List LoadEvent) : Option (Except String Unit) :=
  if img.complete = true ∧ 0 < img.naturalWidth then some (Except.ok ())
  else
    match events with
    | [] => none
    | LoadEvent.load :: _ => some (Except.ok ())
    | LoadEvent.err :: _ => some (Except.error imgErrorMsg)

/-- `measureTextWithSpacing`, inner loop (hook lines 58-71): the sum of the
per-glyph widths of the upper-cased text plus one letter-spacing gap after
every glyph but the last.  `glyphFn` abstracts `ctx.measureText` at the
currently set font. -/
def measureChars (glyphFn : Char → ℚ) (letterSpacing : ℚ) : List Char → ℚ
  | [] => 0
  | [c] => glyphFn c
  | c :: c2 :: rest => glyphFn c + letterSpacing + measureChars glyphFn letterSpacing (c2 :: rest)

/-- `measureTextWithSpacing` (hook lines 58-71).  `text.toUpperCase()` is
modelled character-wise as `List.map Char.toUpper` over the text's
characters. -/
def measureTextWithSpacing (glyphFn : Char → ℚ) (text : String) (letterSpacing : ℚ) : ℚ :=
  measureChars glyphFn letterSpacing (text.data.map Char.toUpper)

/-- Base font size (hook line 111): `Math.max(24, Math.round(base * 0.16))`
where `base` is the shorter displayed side. -/
def baseFontPx (dispW dispH : ℚ) : ℤ :=
  max 24 (jsRound (min dispW dispH * (16 / 100)))

/-- Base letter spacing (hook line 112): `Math.round(fontPx * 0.06)`. -/
def baseSpacing (dispW dispH : ℚ) : ℤ :=
  jsRound ((baseFontPx dispW dispH : ℚ) * (6 / 100))

/-- Measured width of the watermark text at the base font size (hook
line 116).  `glyph` gives the per-glyph width as a function of the font size
set on the context. -/
def baseTextW (glyph : ℤ → Char → ℚ) (dispW dispH : ℚ) : ℚ :=
  measureTextWithSpacing (glyph (baseFontPx dispW dispH)) TEXT
    ((baseSpacing dispW dispH : ℤ) : ℚ)

/-- Result of the layout computation inside `bakeWatermark`
(hook lines 104-129). -/
structure Layout where
  fontPx : ℤ
  letterSpacingPx : ℤ
  textW : ℚ
  margin : ℤ
  xStart : ℚ
  y : ℚ
deriving DecidableEq

/-- Margin, anchor x and baseline y (hook lines 127-129), shared by the
shrink and no-shrink branches. -/
def mkRest (fontPx spacing : ℤ) (textW : ℚ) (w h : ℕ) : Layout :=
  let margin : ℤ := max 12 (jsRound (((min w h : ℕ) : ℚ) * (35 / 1000)))
  { fontPx := fontPx, letterSpacingPx := spacing, textW := textW, margin := margin,
    xStart := max 0 ((w : ℚ) - textW - (margin : ℚ)),
    y := max ((fontPx : ℚ) + (margin : ℚ)) ((h : ℚ) - (margin : ℚ)) }

/-- The layout engine (hook lines 104-129): base font from the shorter
displayed side, letter spacing at 6 percent, measured width; when the
measured width exceeds 70 percent of the raster width `w`, the font is
shrunk by `Math.max(18, Math.floor(fontPx * maxW / textW))` and the text is
re-measured with the recomputed letter spacing; then margin, anchor x and
baseline y. -/
def layout (glyph : ℤ → Char → ℚ) (w h : ℕ) (dispW dispH : ℚ) : Layout :=
  if baseTextW glyph dispW dispH > (w : ℚ) * (7 / 10) then
    let fontPx1 : ℤ :=
      max 18 ⌊(baseFontPx dispW dispH : ℚ) *
        (((w : ℚ) * (7 / 10)) / baseTextW glyph dispW dispH)⌋
    mkRest fontPx1 (jsRound ((fontPx1 : ℚ) * (6 / 100)))
      (measureTextWithSpacing (glyph fontPx1) TEXT
        ((jsRound ((fontPx1 : ℚ) * (6 / 100)) : ℤ) : ℚ)) w h
  else
    mkRest (baseFontPx dispW dispH) (baseSpacing dispW dispH)
      (baseTextW glyph dispW dispH) w h

/-- A glyph-width model that is linear in the font size: every glyph of the
watermark text is 47/76 of the font size wide.  At font size 24 with letter
spacing 1 the 19-character text measures exactly 300. -/
def gLin : ℤ → Char → ℚ := fun f _ => (47 / 76 : ℚ) * (f : ℚ)

/-- Character-list version of string starts-with: `charsStart p s` is true
when `p` is an initial segment of `s`. -/
def charsStart : List Char → List Char → Bool
  | [], _ => true
  | _ :: _, [] => false
  | a :: as, b :: bs => a == b && charsStart as bs

/-- `String.startsWith`, modelled structurally over the character lists
(used for the `prev.startsWith("blob:")` handle-type check). -/
def strStarts (s p : String) : Bool := charsStart p.data s.data

/-- The outcome of the canvas export step (hook lines 149-172):
`toBlob` produced a blob (fresh object URL), `toBlob` produced null and
`toDataURL` succeeded (data URI), `toBlob` produced null and `toDataURL`
threw, or `toBlob` itself threw (tainted surface). -/
inductive ExportOutcome where
  | blobUrl (url : String)
  | dataUrl (url : String)
  | dataUrlThrew
  | toBlobThrew
deriving DecidableEq

/-- The environment a single bake runs against: the element's future
load/error events, whether the anonymous cross-origin re-load succeeds
(hook lines 83-92), whether a 2d context is available (hook lines 97-98),
and the export outcome (hook lines 149-172). -/
structure BakeEnv where
  events : List LoadEvent
  corsOk : Bool
  ctxOk : Bool
  exportOutcome : ExportOutcome
deriving DecidableEq

/-- The settlement outcome of `bakeWatermark` (hook lines 74-173):
`none` when the promise never settles (pending `ensureLoaded`), otherwise
the resolved transient-handle URL or the rejection message.  The layout
computation (hook lines 104-147) is pure canvas drawing and does not affect
the settlement outcome; it is modelled separately by `layout`. -/
def bakeWatermark (img : ImgEl) (env : BakeEnv) : Option (Except String String) :=
  match ensureLoaded img env.events with
  | none => none
  | some (Except.error e) => some (Except.error e)
  | some (Except.ok _) =>
    if img.naturalWidth = 0 ∨ img.naturalHeight = 0 then some (Except.error noSizeMsg)
    else if env.corsOk = false then some (Except.error corsMsg)
    else if env.ctxOk = false then some (Except.error ctxMsg)
    else
      match env.exportOutcome with
      | ExportOutcome.blobUrl u => some (Except.ok u)
      | ExportOutcome.dataUrl u => some (Except.ok u)
      | ExportOutcome.dataUrlThrew => some (Except.error toDataUrlMsg)
      | ExportOutcome.toBlobThrew => some (Except.error taintedMsg)

/-- A DOM side effect performed by `process` (hook lines 233-254), in
execution order: write the element's `src` attribute, write
`data-wm-url`, revoke a previous object URL, invoke the overlay fallback,
or set `data-wm-processed`. -/
inductive Action where
  | installSrc (url : String)
  | setWmUrl (url : String)
  | revoke (url : String)
  | overlay
  | markProcessed
deriving DecidableEq

/-- The side effects `process` performs after its awaited bake settles
(hook lines 236-253): on a truthy resolved `url`, install it as `src`,
record it in `data-wm-url`, revoke the previous recorded handle only if it
was truthy and a `blob:` URL, then mark processed; on a falsy url or on
rejection, invoke the overlay fallback and mark processed. -/
def postBakeActions (img : ImgEl) (r : Except String String) : List Action :=
  match r with
  | Except.ok url =>
    if url = emptyStr then [Action.overlay, Action.markProcessed]
    else
      [Action.installSrc url, Action.setWmUrl url] ++
        (match img.wmUrl with
          | some prev =>
            if prev ≠ emptyStr ∧ strStarts prev blobScheme = true then [Action.revoke prev]
            else []
          | none => []) ++
        [Action.markProcessed]
  | Except.error _ => [Action.overlay, Action.markProcessed]

/-- `process` (hook lines 233-254) as the trace of DOM side effects of one
invocation: an already-processed or excluded element is skipped (no
actions); otherwise the awaited bake settles with `r` and the actions of
`postBakeActions` run, or the bake never settles (`none`) and no further
code of the invocation ever runs. -/
def process (img : ImgEl) (bake : Option (Except String String)) : Option (List Action) :=
  if alreadyProcessed img = true ∨ exclude img = true then some []
  else
    match bake with
    | none => none
    | some r => some (postBakeActions img r)

/-- An overlay node (hook lines 194-230): the container it is appended to
and the tiling parameters computed from the displayed size. -/
structure OverlayNode where
  host : Nat
  tileCountX : ℤ
  tileCountY : ℤ
  fontPx : ℤ
deriving DecidableEq

/-- Construction of the overlay node for container `h` (hook lines
187-212): displayed size from the bounding rect with fallback to the layout
size, tile counts, and the overlay font size. -/
def mkOverlay (h : Nat) (rectW rectH imgW imgH : ℚ) : OverlayNode :=
  let dispW := max 1 (jsOrQ rectW imgW)
  let dispH := max 1 (jsOrQ rectH imgH)
  { host := h
    tileCountX := max 3 (jsRound (dispW / 160))
    tileCountY := max 2 (jsRound (dispH / 120))
    fontPx := max 12 (jsRound (min dispW dispH * (6 / 100))) }

/-- `host.querySelector("[data-wm-overlay]")` over the attached overlay
nodes: is some overlay already attached under container `h`?  Containers
are modelled as disjoint atoms, so the query is membership by host. -/
def hasOverlay (overlays : List OverlayNode) (h : Nat) : Bool :=
  overlays.any fun o => o.host == h

/-- The overlay fallback `setOverlay` (hook lines 176-231) acting on the
set of attached overlay nodes.  `hostOf` is the resolved container: the
closest semantic ancestor or else the parent element (hook lines 177-180),
`none` when neither exists.  No container: silent no-op.  Existing overlay
under the container: no-op.  Otherwise one overlay node is appended. -/
def setOverlay (hostOf : Option Nat) (rectW rectH imgW imgH : ℚ)
    (overlays : List OverlayNode) : List OverlayNode :=
  match hostOf with
  | none => overlays
  | some h =>
    if hasOverlay overlays h = true then overlays
    else overlays ++ [mkOverlay h rectW rectH imgW imgH]

/-- Number of overlay nodes attached under container `h`. -/
def countHost (h : Nat) (overlays : List OverlayNode) : Nat :=
  (overlays.filter fun o => o.host == h).length

/-- Repeated overlay applications for images sharing container `h`, each
with its own displayed dimensions. -/
def applyAll (h : Nat) (dims : List (ℚ × ℚ × ℚ × ℚ))
    (overlays : List OverlayNode) : List OverlayNode :=
  dims.foldl (fun acc d => setOverlay (some h) d.1 d.2.1 d.2.2.1 d.2.2.2 acc) overlays

/-- The mutable state one engine instance owns: the tracked element, whether
the intersection observer currently observes it, whether the two observers
are connected, the attached overlay nodes, and the revoked handles. -/
structure EngineWorld where
  img : ImgEl
  observed : Bool
  ioConnected : Bool
  moConnected : Bool
  overlays : List OverlayNode
  revoked : List String

/-- Interpretation of one `process` side effect on the engine state.
`hostOf`, `rectW`, `rectH` describe the element's container and bounding
rect for the overlay fallback. -/
def applyAction (hostOf : Option Nat) (rectW rectH : ℚ) (w : EngineWorld) :
    Action → EngineWorld
  | Action.installSrc url => { w with img := { w.img with src := url } }
  | Action.setWmUrl url => { w with img := { w.img with wmUrl := some url } }
  | Action.revoke p => { w with revoked := w.revoked ++ [p] }
  | Action.overlay =>
    let ov := setOverlay hostOf rectW rectH (w.img.width : ℚ) (w.img.height : ℚ) w.overlays
    { w with overlays := ov }
  | Action.markProcessed => { w with img := { w.img with wmProcessed := oneStr } }

/-- Run a trace of `process` side effects on the engine state. -/
def applyActions (hostOf : Option Nat) (rectW rectH : ℚ) (w : EngineWorld)
    (acts : List Action) : EngineWorld :=
  acts.foldl (applyAction hostOf rectW rectH) w

/-- The mutation-observer callback's attribute branch (hook lines 292-300),
fired when the tracked element's `src` attribute changes - by any writer,
including the engine's own `img.src = url` assignment: it unconditionally
clears `data-wm-processed` and, if the element is not excluded, re-registers
it with the intersection observer.  Nothing fires once the observer is
disconnected. -/
def moAttrSrcHandler (w : EngineWorld) : EngineWorld :=
  if w.moConnected = true then
    let img1 := { w.img with wmProcessed := emptyStr }
    if exclude img1 = true then { w with img := img1 }
    else { w with img := img1, observed := true }
  else w

/-- The effect cleanup (hook lines 312-322): disconnect the intersection
observer (ending all visibility observation), disconnect the mutation
observer, and remove every attached overlay node. -/
def teardown (w : EngineWorld) : EngineWorld :=
  { w with ioConnected := false, observed := false, moConnected := false, overlays := [] }

/-- An eligible, loaded, unprocessed 800 by 600 image. -/
def imgEl0 : ImgEl :=
  { noWm := emptyStr, classNoWm := false, naturalWidth := 800, naturalHeight := 600,
    width := 800, height := 600, complete := true, src := emptyStr,
    wmProcessed := emptyStr, wmUrl := none }

/-- A fresh engine instance tracking `imgEl0`, both observers connected. -/
def world0 : EngineWorld :=
  { img := imgEl0, observed := false, ioConnected := true, moConnected := true,
    overlays := [], revoked := [] }

/-- First transient handle produced by a bake. -/
def blobA : String := "blob:a"

/-- Second transient handle produced by a re-bake. -/
def blobB : String := "blob:b"

/-- A previously assigned transient blob handle. -/
def blobOld : String := "blob:old"

/-- The fresh transient handle installed by a re-bake. -/
def blobNew : String := "blob:new"

/-- The engine state after the successful bake of `imgEl0` settles and its
side effects run: the fresh handle `blobA` is installed as `src`, recorded
in `data-wm-url`, and the element is marked processed. -/
def world1 : EngineWorld :=
  applyActions (some 0) 800 600 world0 (postBakeActions imgEl0 (Except.ok blobA))

/-- The engine state after the browser delivers the mutation record for the
engine's own `src` write and the observer callback runs. -/
def world2 : EngineWorld := moAttrSrcHandler world1

/-- The engine state after the effect cleanup runs while a bake for
`imgEl0` is still in flight. -/
def worldTorn : EngineWorld := teardown world0

/-- The engine state after the in-flight bake finally rejects (for example
with the cross-origin failure) and the catch branch of `process` runs on
the torn-down state; the element's container is modelled as container 7. -/
def worldLate : EngineWorld :=
  applyActions (some 7) 800 600 worldTorn (postBakeActions worldTorn.img (Except.error corsMsg))

/-- An eligible element that already holds the transient handle `blobOld`
from an earlier bake. -/
def imgPrev : ImgEl := { imgEl0 with wmUrl := some blobOld }

/-- An element whose load has settled in a failed state: `complete` is true
but the natural width stayed zero, and no further load or error event will
ever fire.  Its layout size keeps it past the eligibility filter. -/
def imgPending : ImgEl :=
  { noWm := emptyStr, classNoWm := false, naturalWidth := 0, naturalHeight := 0,
    width := 500, height := 500, complete := true, src := emptyStr,
    wmProcessed := emptyStr, wmUrl := none }

/-- A bake environment in which every later stage would succeed; only the
loader decides the outcome. -/
def envPending : BakeEnv :=
  { events := [], corsOk := true, ctxOk := true, exportOutcome := ExportOutcome.blobUrl blobA }

/-- A bake environment whose anonymous cross-origin re-load is refused. -/
def envCors : BakeEnv :=
  { events := [], corsOk := false, ctxOk := true, exportOutcome := ExportOutcome.blobUrl blobA }

/-- A not-yet-loaded element (zero natural size) whose layout size is
300 by 300. -/
def imgHalf : ImgEl :=
  { noWm := emptyStr, classNoWm := false, naturalWidth := 0, naturalHeight := 0,
    width := 300, height := 300, complete := false, src := emptyStr,
    wmProcessed := emptyStr, wmUrl := none }

/-- C1.  The claim says the tracker suppresses reprocessing when the
engine's own baking path rewrites the element's `src` attribute, guarded by
the record's handle ownership.  The code has no such guard: evaluating the
handler on the state right after a successful bake shows that the element
had been marked processed with `blobA` installed and recorded in
`data-wm-url`, yet the mutation delivered for that very write clears the
processed marker, re-registers visibility observation, and the next
`process` run performs a full second bake of the same generation
(installing a second handle and revoking the first). -/
theorem c1_own_write_reprocessed :
    world1.img.wmProcessed = oneStr ∧
    world1.img.src = blobA ∧
    world1.img.wmUrl = some blobA ∧
    world2.img.wmProcessed = emptyStr ∧
    world2.observed = true ∧
    process world2.img (some (Except.ok blobB)) =
      some [Action.installSrc blobB, Action.setWmUrl blobB, Action.revoke blobA,
        Action.markProcessed] := by decide

/-- C2.  Teardown does cancel observation and remove every overlay node,
but the claim that a bake still in flight at teardown time cannot attach an
overlay after it settles is false: evaluating the rejection continuation of
`process` on the torn-down state shows a fresh overlay node attached under
the element's container (the completed cleanup never removes it), although
no observer is re-registered. -/
theorem c2_overlay_attached_after_teardown :
    worldTorn.overlays = [] ∧
    worldTorn.ioConnected = false ∧
    worldTorn.moConnected = false ∧
    worldTorn.observed = false ∧
    countHost 7 worldLate.overlays = 1 ∧
    worldLate.observed = false ∧
    worldLate.ioConnected = false ∧
    worldLate.moConnected = false := by decide

/-- C4.  Every failure of the baking pipeline settles `process` normally:
the failure is consumed by the catch branch and converted into exactly one
overlay-fallback invocation followed by marking the element processed; no
exception escapes the invocation (its trace is a plain list of the two
actions). -/
theorem c4_failure_contained (img : ImgEl) (env : BakeEnv) (e : String)
    (hp : alreadyProcessed img = false) (hx : exclude img = false)
    (hf : bakeWatermark img env = some (Except.error e)) :
    process img (bakeWatermark img env) = some [Action.overlay, Action.markProcessed] := by
  simp [process, hp, hx, hf, postBakeActions]

/-- Witness for C4 at a concrete input: the cross-origin probe rejection. -/
theorem c4_failure_contained_witness :
    bakeWatermark imgEl0 envCors = some (Except.error corsMsg) ∧
    process imgEl0 (bakeWatermark imgEl0 envCors) =
      some [Action.overlay, Action.markProcessed] :=
  ⟨by decide, c4_failure_contained imgEl0 envCors corsMsg (by decide) (by decide) (by decide)⟩

/-- C5.  On a successful re-bake the trace installs the fresh handle as the
displayed source and records it before the previous handle is revoked
(release strictly after install); a previous handle that is not a
blob-type handle is never revoked; and any handle revoked by the trace is a
blob handle different from the freshly installed displayed source. -/
theorem c5_handle_hygiene (img : ImgEl) (url prev : String)
    (hwm : img.wmUrl = some prev) (hu : url ≠ emptyStr) (hfresh : url ≠ prev)
    (hp : alreadyProcessed img = false) (hx : exclude img = false) :
    (prev ≠ emptyStr → strStarts prev blobScheme = true →
      process img (some (Except.ok url)) =
        some [Action.installSrc url, Action.setWmUrl url, Action.revoke prev,
          Action.markProcessed]) ∧
    (strStarts prev blobScheme = false →
      process img (some (Except.ok url)) =
        some [Action.installSrc url, Action.setWmUrl url, Action.markProcessed]) ∧
    (∀ x, Action.revoke x ∈ postBakeActions img (Except.ok url) →
      strStarts x blobScheme = true ∧ x ≠ url) := by
  refine ⟨?_, ?_, ?_⟩
  · intro hne hsw
    simp [process, hp, hx, postBakeActions, hu, hwm, hne, hsw]
  · intro hsw
    simp [process, hp, hx, postBakeActions, hu, hwm, hsw]
  · intro x hmem
    simp only [postBakeActions, hwm] at hmem
    rw [if_neg hu] at hmem
    by_cases hc : (prev ≠ emptyStr ∧ strStarts prev blobScheme = true)
    · rw [if_pos hc] at hmem
      simp at hmem
      subst hmem
      exact ⟨hc.2, fun hexact => hfresh hexact.symm⟩
    · rw [if_neg hc] at hmem
      simp at hmem

/-- Witness for C5 at a concrete input: re-bake of an element holding
`blobOld`, installing `blobNew`. -/
theorem c5_handle_hygiene_witness :
    process imgPrev (some (Except.ok blobNew)) =
      some [Action.installSrc blobNew, Action.setWmUrl blobNew, Action.revoke blobOld,
        Action.markProcessed] :=
  (c5_handle_hygiene imgPrev blobNew blobOld (by decide) (by decide) (by decide)
    (by decide) (by decide)).1 (by decide) (by decide)

/-- Counterexample to C6: an image element with zero intrinsic size, no
opt-out flag and no opt-out class IS rejected by the eligibility filter
when its layout size is also zero, contradicting the claim that a
zero-intrinsic-size element is never rejected. -/
theorem c6_zero_size_excluded :
    imgZero.naturalWidth = 0 ∧ imgZero.naturalHeight = 0 ∧
    imgZero.noWm ≠ trueStr ∧ imgZero.classNoWm = false ∧
    exclude imgZero = true := by decide

/-- C6 amended.  For an element with zero intrinsic size and no opt-outs,
the filter falls back to the layout/attribute size: it is not rejected
exactly when the fallback width and height are both at least 120; in
particular a zero-intrinsic-size element whose layout size is also zero is
excluded rather than treated as not yet excludable. -/
theorem c6_zero_size_amended (img : ImgEl)
    (h1 : img.noWm ≠ trueStr) (h2 : img.classNoWm = false)
    (h3 : img.naturalWidth = 0) (h4 : img.naturalHeight = 0) :
    exclude img = false ↔ (120 ≤ img.width ∧ 120 ≤ img.height) := by
  simp [exclude, jsOr, h1, h2, h3, h4]

/-- Witness for C6 amended at a concrete input: zero natural size with a
300 by 300 layout size passes the filter. -/
theorem c6_zero_size_amended_witness : exclude imgHalf = false :=
  (c6_zero_size_amended imgHalf (by decide) (by decide) (by decide) (by decide)).mpr
    (by decide)

/-- Counterexample to C7: the filter does not exclude by natural size
alone - an element whose natural width is 0 (below 120) but whose layout
width falls back large is NOT excluded, refuting the claimed
if-and-only-if on natural dimensions. -/
theorem c7_natural_iff_fails :
    imgFallback.naturalWidth < 120 ∧ imgFallback.noWm ≠ trueStr ∧
    imgFallback.classNoWm = false ∧ exclude imgFallback = false := by decide

/-- C7 amended.  With no opt-out flag and no opt-out class, the filter
excludes exactly when the effective width or effective height is below 120,
where an effective dimension is the natural dimension falling back to the
layout dimension when the natural one is zero; an excluded element is never
processed (its processing trace is empty).  The claim's concrete instances
stand: natural 100 by 100 is excluded, natural 120 by 120 is eligible. -/
theorem c7_exclusion_amended (img : ImgEl) (bake : Option (Except String String))
    (h1 : img.noWm ≠ trueStr) (h2 : img.classNoWm = false) :
    (exclude img = true ↔
      (jsOr img.naturalWidth img.width < 120 ∨ jsOr img.naturalHeight img.height < 120)) ∧
    (exclude img = true → process img bake = some []) := by
  constructor
  · by_cases hc : (jsOr img.naturalWidth img.width < 120 ∨
      jsOr img.naturalHeight img.height < 120)
    · simp [exclude, h1, h2, hc]
    · simp [exclude, h1, h2, hc]
  · intro hx
    simp [process, hx]

/-- Witness for C7 amended at concrete inputs: 100 by 100 is excluded and
never processed; 120 by 120 is eligible. -/
theorem c7_exclusion_amended_witness :
    exclude img100 = true ∧ process img100 none = some [] ∧ exclude img120 = false := by
  have h := c7_exclusion_amended img100 none (by decide) (by decide)
  exact ⟨h.1.mpr (by decide), h.2 (h.1.mpr (by decide)), by decide⟩

/-- Measured width under a constant per-glyph width: glyph count times the
glyph width plus one spacing gap per glyph pair. -/
theorem measureChars_const (gval sp : ℚ) (l : List Char) :
    measureChars (fun _ => gval) sp l =
      (l.length : ℚ) * gval + ((l.length - 1 : ℕ) : ℚ) * sp := by
  match l with
  | [] => simp [measureChars]
  | [c] => simp [measureChars]
  | c :: c2 :: rest =>
    rw [measureChars, measureChars_const gval sp (c2 :: rest)]
    push_cast [List.length_cons]
    ring_nf

/-- The upper-cased watermark text has 19 glyphs. -/
theorem textLen : (TEXT.data.map Char.toUpper).length = 19 := by decide

/-- Measured width of the watermark text under the linear glyph model. -/
theorem measure_gLin (f : ℤ) (sp : ℚ) :
    measureTextWithSpacing (gLin f) TEXT sp =
      19 * ((47 / 76 : ℚ) * (f : ℚ)) + 18 * sp := by
  show measureChars (fun _ => (47 / 76 : ℚ) * (f : ℚ)) sp (TEXT.data.map Char.toUpper) = _
  rw [measureChars_const, textLen]
  norm_num

/-- At displayed size 100 by 100 the base font size is the 24px floor. -/
theorem baseFontPx_100 : baseFontPx 100 100 = 24 := by
  norm_num [baseFontPx, jsRound]

/-- At displayed size 100 by 100 the base letter spacing rounds to 1. -/
theorem baseSpacing_100 : baseSpacing 100 100 = 1 := by
  norm_num [baseSpacing, jsRound, baseFontPx_100]

/-- Base measured width under the linear glyph model, in closed form. -/
theorem baseTextW_gLin (dW dH : ℚ) :
    baseTextW gLin dW dH =
      19 * ((47 / 76 : ℚ) * ((baseFontPx dW dH : ℤ) : ℚ)) +
        18 * ((baseSpacing dW dH : ℤ) : ℚ) := by
  unfold baseTextW
  rw [measure_gLin]

/-- Under the linear glyph model the text measures exactly 300 at the base
font size for a 100 by 100 displayed box. -/
theorem baseTextW_gLin_100 : baseTextW gLin 100 100 = 300 := by
  rw [baseTextW_gLin, baseFontPx_100, baseSpacing_100]
  push_cast
  norm_num

/-- When the measured width exceeds 70 percent of the raster width, the
layout's resulting font size, letter spacing and re-measured width are
exactly the shrink-branch expressions of the source. -/
theorem layout_shrink_fields (glyph : ℤ → Char → ℚ) (w h : ℕ) (dispW dispH : ℚ)
    (hgt : baseTextW glyph dispW dispH > (w : ℚ) * (7 / 10)) :
    (layout glyph w h dispW dispH).fontPx =
      max 18 ⌊((baseFontPx dispW dispH : ℤ) : ℚ) *
        (((w : ℚ) * (7 / 10)) / baseTextW glyph dispW dispH)⌋ ∧
    (layout glyph w h dispW dispH).letterSpacingPx =
      jsRound (((layout glyph w h dispW dispH).fontPx : ℚ) * (6 / 100)) ∧
    (layout glyph w h dispW dispH).textW =
      measureTextWithSpacing (glyph (layout glyph w h dispW dispH).fontPx) TEXT
        ((jsRound (((layout glyph w h dispW dispH).fontPx : ℚ) * (6 / 100)) : ℤ) : ℚ) := by
  unfold layout
  rw [if_pos hgt]
  exact ⟨rfl, rfl, rfl⟩

/-- The shrunk font size is strictly smaller than the base font size. -/
theorem layout_fontPx_lt_base (glyph : ℤ → Char → ℚ) (w h : ℕ) (dispW dispH : ℚ)
    (hgt : baseTextW glyph dispW dispH > (w : ℚ) * (7 / 10)) :
    (layout glyph w h dispW dispH).fontPx < baseFontPx dispW dispH := by
  rw [(layout_shrink_fields glyph w h dispW dispH hgt).1]
  have hf0 : (24 : ℤ) ≤ baseFontPx dispW dispH := le_max_left _ _
  have hw0 : (0 : ℚ) ≤ (w : ℚ) * (7 / 10) := by positivity
  have htw : (0 : ℚ) < baseTextW glyph dispW dispH := lt_of_le_of_lt hw0 hgt
  have hs : ((w : ℚ) * (7 / 10)) / baseTextW glyph dispW dispH < 1 :=
    (div_lt_one htw).mpr hgt
  have hf0q : (0 : ℚ) < ((baseFontPx dispW dispH : ℤ) : ℚ) := by
    exact_mod_cast lt_of_lt_of_le (by norm_num : (0 : ℤ) < 24) hf0
  have hmul : ((baseFontPx dispW dispH : ℤ) : ℚ) *
      (((w : ℚ) * (7 / 10)) / baseTextW glyph dispW dispH) <
      ((baseFontPx dispW dispH : ℤ) : ℚ) :=
    mul_lt_of_lt_one_right hf0q hs
  have hfl : ⌊((baseFontPx dispW dispH : ℤ) : ℚ) *
      (((w : ℚ) * (7 / 10)) / baseTextW glyph dispW dispH)⌋ < baseFontPx dispW dispH :=
    Int.floor_lt.mpr (by exact_mod_cast hmul)
  exact max_lt (lt_of_lt_of_le (by norm_num) hf0) hfl

/-- The 200-wide-raster, 300-wide-text instance takes the shrink branch. -/
theorem c3_hgt : baseTextW gLin 100 100 > ((200 : ℕ) : ℚ) * (7 / 10) := by
  rw [baseTextW_gLin_100]
  push_cast
  norm_num

/-- In that instance the shrunken size 11 is clamped to the 18px floor. -/
theorem layoutC3_fontPx : (layout gLin 200 200 100 100).fontPx = 18 := by
  rw [(layout_shrink_fields gLin 200 200 100 100 c3_hgt).1, baseFontPx_100,
    baseTextW_gLin_100]
  have hfl : ⌊((24 : ℤ) : ℚ) * ((((200 : ℕ) : ℚ) * (7 / 10)) / 300)⌋ = 11 := by
    push_cast
    norm_num
  rw [hfl]
  decide

/-- Letter spacing recomputed at 18px rounds to 1. -/
theorem c3_sp18 : jsRound (((18 : ℤ) : ℚ) * (6 / 100)) = 1 := by
  unfold jsRound
  push_cast
  norm_num

/-- In that instance the re-measured width is 229.5 under the linear glyph
model. -/
theorem layoutC3_textW : (layout gLin 200 200 100 100).textW = 459 / 2 := by
  have h := (layout_shrink_fields gLin 200 200 100 100 c3_hgt).2.2
  rw [layoutC3_fontPx, c3_sp18, measure_gLin] at h
  rw [h]
  push_cast
  norm_num

/-- Counterexample to C3: for raster width 200 and a text measuring exactly
300 at the base font size (base 24, displayed box 100 by 100, linear glyph
widths), the engine does return a font size strictly smaller than the base,
but the 18px floor clamps the shrunken size (11 would be needed) and the
final measured width is 229.5, far above the claimed 140px plus 1px
tolerance. -/
theorem c3_width_bound_fails :
    baseFontPx 100 100 = 24 ∧
    baseTextW gLin 100 100 = 300 ∧
    (layout gLin 200 200 100 100).fontPx < baseFontPx 100 100 ∧
    (layout gLin 200 200 100 100).textW = 459 / 2 ∧
    ¬ ((layout gLin 200 200 100 100).textW ≤ 140 + 1) := by
  refine ⟨baseFontPx_100, baseTextW_gLin_100, ?_, layoutC3_textW, ?_⟩
  · rw [layoutC3_fontPx, baseFontPx_100]
    decide
  · rw [layoutC3_textW]
    norm_num

/-- C3 amended.  Whenever the measured width exceeds 70 percent of the
raster width, the engine shrinks the font size to
`max(18, floor(base * maxWidth / measuredWidth))` - strictly below the base
size - and re-measures with the letter spacing recomputed at the new size;
the final measured width is whatever that re-measurement yields (it is not
in general bounded by 70 percent of the raster width plus 1px: the 18px
floor can clamp the size, as the counterexample shows). -/
theorem c3_shrink_amended (glyph : ℤ → Char → ℚ) (w h : ℕ) (dispW dispH : ℚ)
    (hgt : baseTextW glyph dispW dispH > (w : ℚ) * (7 / 10)) :
    (layout glyph w h dispW dispH).fontPx =
      max 18 ⌊((baseFontPx dispW dispH : ℤ) : ℚ) *
        (((w : ℚ) * (7 / 10)) / baseTextW glyph dispW dispH)⌋ ∧
    (layout glyph w h dispW dispH).fontPx < baseFontPx dispW dispH ∧
    (layout glyph w h dispW dispH).letterSpacingPx =
      jsRound (((layout glyph w h dispW dispH).fontPx : ℚ) * (6 / 100)) ∧
    (layout glyph w h dispW dispH).textW =
      measureTextWithSpacing (glyph (layout glyph w h dispW dispH).fontPx) TEXT
        ((jsRound (((layout glyph w h dispW dispH).fontPx : ℚ) * (6 / 100)) : ℤ) : ℚ) :=
  ⟨(layout_shrink_fields glyph w h dispW dispH hgt).1,
    layout_fontPx_lt_base glyph w h dispW dispH hgt,
    (layout_shrink_fields glyph w h dispW dispH hgt).2.1,
    (layout_shrink_fields glyph w h dispW dispH hgt).2.2⟩

/-- Witness for C3 amended at a concrete input: the 200-wide-raster
instance with the linear glyph model takes the shrink branch and the
resulting font size is strictly below the base. -/
theorem c3_shrink_amended_witness :
    baseTextW gLin 100 100 > ((200 : ℕ) : ℚ) * (7 / 10) ∧
    (layout gLin 200 200 100 100).fontPx < baseFontPx 100 100 :=
  ⟨c3_hgt, (c3_shrink_amended gLin 200 200 100 100 c3_hgt).2.1⟩

/-- C8.  When no shrink pass is needed (the measured width is within 70
percent of the raster width), the layout returns font size
`max(24, round(0.16 * shorter displayed side))`, letter spacing
`round(0.06 * fontSize)`, the base measured text width, margin
`max(12, round(0.035 * min(rasterW, rasterH)))`, anchor
x `max(0, rasterW - textWidth - margin)` and baseline
y `max(fontSize + margin, rasterH - margin)`. -/
theorem c8_layout_no_shrink (glyph : ℤ → Char → ℚ) (w h : ℕ) (dispW dispH : ℚ)
    (hfit : baseTextW glyph dispW dispH ≤ (w : ℚ) * (7 / 10)) :
    (layout glyph w h dispW dispH).fontPx =
      max 24 (jsRound (min dispW dispH * (16 / 100))) ∧
    (layout glyph w h dispW dispH).letterSpacingPx =
      jsRound (((layout glyph w h dispW dispH).fontPx : ℚ) * (6 / 100)) ∧
    (layout glyph w h dispW dispH).textW = baseTextW glyph dispW dispH ∧
    (layout glyph w h dispW dispH).margin =
      max 12 (jsRound (((min w h : ℕ) : ℚ) * (35 / 1000))) ∧
    (layout glyph w h dispW dispH).xStart =
      max 0 ((w : ℚ) - (layout glyph w h dispW dispH).textW -
        ((layout glyph w h dispW dispH).margin : ℚ)) ∧
    (layout glyph w h dispW dispH).y =
      max (((layout glyph w h dispW dispH).fontPx : ℚ) +
          ((layout glyph w h dispW dispH).margin : ℚ))
        ((h : ℚ) - ((layout glyph w h dispW dispH).margin : ℚ)) := by
  have hno : ¬ (baseTextW glyph dispW dispH > (w : ℚ) * (7 / 10)) := not_lt.mpr hfit
  unfold layout
  rw [if_neg hno]
  exact ⟨rfl, rfl, rfl, rfl, rfl, rfl⟩

/-- Witness for C8 at a concrete input: raster 1000 by 800, displayed box
100 by 100, linear glyph model (width 300 fits within 700). -/
theorem c8_layout_no_shrink_witness :
    baseTextW gLin 100 100 ≤ ((1000 : ℕ) : ℚ) * (7 / 10) ∧
    (layout gLin 1000 800 100 100).fontPx = 24 ∧
    (layout gLin 1000 800 100 100).margin = 28 := by
  have hfit : baseTextW gLin 100 100 ≤ ((1000 : ℕ) : ℚ) * (7 / 10) := by
    rw [baseTextW_gLin_100]
    push_cast
    norm_num
  have h := c8_layout_no_shrink gLin 1000 800 100 100 hfit
  refine ⟨hfit, ?_, ?_⟩
  · rw [h.1]
    have h16 : jsRound (min (100 : ℚ) 100 * (16 / 100)) = 16 := by
      norm_num [jsRound]
    rw [h16]
    decide
  · rw [h.2.2.2.1]
    have h28 : jsRound (((min 1000 800 : ℕ) : ℚ) * (35 / 1000)) = 28 := by
      norm_num [jsRound, Nat.min_def]
    rw [h28]
    decide

/-- The host of a freshly constructed overlay node is the container it was
built for. -/
theorem mkOverlay_host (h : Nat) (rW rH iW iH : ℚ) :
    (mkOverlay h rW rH iW iH).host = h := rfl

/-- The container query succeeds exactly when some overlay node is attached
under the container. -/
theorem hasOverlay_count (h : Nat) (ov : List OverlayNode) :
    hasOverlay ov h = true ↔ 0 < countHost h ov := by
  induction ov with
  | nil => simp [hasOverlay, countHost]
  | cons o rest ih =>
    by_cases hh : (o.host == h) = true
    · simp [hasOverlay, countHost, List.filter_cons, hh]
    · simp [hasOverlay, countHost, List.filter_cons, hh] at ih ⊢
      exact ih

/-- Applying the overlay fallback to a container that already holds an
overlay is a no-op. -/
theorem setOverlay_preserved (h : Nat) (rW rH iW iH : ℚ) (ov : List OverlayNode)
    (hov : hasOverlay ov h = true) :
    setOverlay (some h) rW rH iW iH ov = ov := by
  simp [setOverlay, hov]

/-- Applying the overlay fallback to a container with no overlay attaches
exactly one node under it. -/
theorem countHost_setOverlay_new (h : Nat) (rW rH iW iH : ℚ) (ov : List OverlayNode)
    (hov : hasOverlay ov h = false) :
    countHost h (setOverlay (some h) rW rH iW iH ov) = countHost h ov + 1 := by
  simp [setOverlay, hov, countHost, List.filter_append, List.filter_cons, mkOverlay_host]

/-- Once exactly one overlay is attached under a container, any further
sequence of overlay applications for that container leaves exactly one. -/
theorem applyAll_stable (h : Nat) (dims : List (ℚ × ℚ × ℚ × ℚ)) :
    ∀ ov : List OverlayNode, countHost h ov = 1 →
      countHost h (applyAll h dims ov) = 1 := by
  induction dims with
  | nil => intro ov h1; simpa [applyAll] using h1
  | cons d rest ih =>
    intro ov h1
    have hov : hasOverlay ov h = true := (hasOverlay_count h ov).mpr (by omega)
    rw [applyAll, List.foldl_cons, setOverlay_preserved h _ _ _ _ ov hov]
    exact ih ov h1

/-- C9.  The overlay fallback is idempotent per container: with no
resolvable container (no semantic ancestor and no parent element) it is a
silent no-op; applying it to an image whose resolved container already
holds an overlay is a no-op; and any non-empty sequence of applications for
images sharing one container, each with its own displayed dimensions,
leaves exactly one overlay node under that container. -/
theorem c9_overlay_idempotent :
    (∀ (rW rH iW iH : ℚ) (ov : List OverlayNode),
      setOverlay none rW rH iW iH ov = ov) ∧
    (∀ (h : Nat) (rW rH iW iH : ℚ) (ov : List OverlayNode),
      hasOverlay ov h = true → setOverlay (some h) rW rH iW iH ov = ov) ∧
    (∀ (h : Nat) (dims : List (ℚ × ℚ × ℚ × ℚ)) (ov : List OverlayNode),
      countHost h ov = 0 → dims ≠ [] →
      countHost h (applyAll h dims ov) = 1) := by
  refine ⟨fun rW rH iW iH ov => rfl, setOverlay_preserved, ?_⟩
  intro h dims ov h0 hne
  match dims with
  | [] => exact absurd rfl hne
  | d :: rest =>
    have hov : hasOverlay ov h = false := by
      cases hcase : hasOverlay ov h
      · rfl
      · have := (hasOverlay_count h ov).mp hcase
        omega
    rw [applyAll, List.foldl_cons]
    refine applyAll_stable h rest _ ?_
    rw [countHost_setOverlay_new h _ _ _ _ ov hov, h0]

/-- Witness for C9 at concrete inputs: a detached image is a no-op, a
second application under container 3 is a no-op, and two applications under
container 3 starting from no overlays leave exactly one node. -/
theorem c9_overlay_idempotent_witness :
    setOverlay none 10 10 5 5 [] = [] ∧
    setOverlay (some 3) 10 10 5 5 [mkOverlay 3 10 10 5 5] = [mkOverlay 3 10 10 5 5] ∧
    countHost 3 (applyAll 3 [(160, 120, 160, 120), (320, 240, 320, 240)] []) = 1 := by
  refine ⟨c9_overlay_idempotent.1 10 10 5 5 [],
    c9_overlay_idempotent.2.1 3 10 10 5 5 [mkOverlay 3 10 10 5 5] (by decide),
    c9_overlay_idempotent.2.2 3 [(160, 120, 160, 120), (320, 240, 320, 240)] []
      (by decide) (by decide)⟩

/-- C10.  For an element whose load has already settled in a failed state
(complete with zero natural width) and which therefore emits no further
load or error event, the loader's promise never settles, hence the bake
never settles and the `process` invocation never reaches its continuation:
the element is neither marked processed nor given an overlay. -/
theorem c10_ensureLoaded_pends (img : ImgEl) (env : BakeEnv)
    (hc : img.complete = true) (hw : img.naturalWidth = 0) (hev : env.events = [])
    (hp : alreadyProcessed img = false) (hx : exclude img = false) :
    ensureLoaded img env.events = none ∧
    bakeWatermark img env = none ∧
    process img (bakeWatermark img env) = none := by
  have h1 : ensureLoaded img env.events = none := by
    simp [ensureLoaded, hev, hw, hc]
  have h2 : bakeWatermark img env = none := by
    simp [bakeWatermark, h1]
  exact ⟨h1, h2, by simp [process, hp, hx, h2]⟩

/-- Witness for C10 at a concrete input: a completed-but-failed element
with a large layout size (so the filter does not skip it). -/
theorem c10_ensureLoaded_pends_witness :
    imgPending.complete = true ∧ exclude imgPending = false ∧
    process imgPending (bakeWatermark imgPending envPending) = none :=
  ⟨by decide, by decide,
    (c10_ensureLoaded_pends imgPending envPending (by decide) (by decide) rfl
      (by decide) (by decide)).2.2⟩

end Watermark
